import Mathlib

/-!
Verification development for the simple-pos Next.js repository.

The Lean definitions below are a shallow embedding of the repository's
order-creation flow (`src/server/api/routers/order.ts`) and cart store
(`src/store/cart.ts`).  Monetary amounts and quantities are modelled with
exact rational arithmetic (`ℚ`); database tables are lists of row
structures; the Prisma calls and the Xendit gateway call become explicit
state passing with injectable failure outcomes, mirroring the sequence of
`await`s in the source.
-/

namespace SimplePos

/-! ## Cart store (`src/store/cart.ts`) -/

/-- One line of the client-local cart (`type CartItem` in `cart.ts`). -/
structure CartItem where
  productId : String
  name : String
  price : ℚ
  quantity : ℕ
  imageUrl : String
  deriving Repr, DecidableEq

/-- The argument of `addToCart` (`type AddToCartItem = Omit<CartItem, "quantity">`). -/
structure AddToCartItem where
  productId : String
  name : String
  price : ℚ
  imageUrl : String
  deriving Repr, DecidableEq

/-- Value-level embedding of `addToCart` from `cart.ts`: copy the items
array, `findIndex` a line with the same `productId`; if none, `push` a new
line with quantity 1; otherwise increment that line's quantity (the code's
defensive `if (!itemToUpdate)` branch returns the state unchanged). -/
def addToCart (items : List CartItem) (newItem : AddToCartItem) : List CartItem :=
  match items.findIdx? (fun it => it.productId == newItem.productId) with
  | none =>
      items ++ [{ productId := newItem.productId, name := newItem.name,
                  price := newItem.price, quantity := 1, imageUrl := newItem.imageUrl }]
  | some i =>
      match items[i]? with
      | none => items
      | some itemToUpdate => items.set i { itemToUpdate with quantity := itemToUpdate.quantity + 1 }

/-! ### Reference-level cart model

JavaScript arrays hold references to line objects, and
`const duplicateItems = [...currentState.items]` copies only the array of
references, not the line objects.  To reason about in-place mutation we
model the JS heap explicitly: a heap is a list of `CartItem` cells
(addresses are indices), and a cart value is a list of addresses.  The
spread copy keeps the same addresses; `itemToUpdate.quantity += 1` is a
heap update at a shared address. -/

/-- The store of allocated `CartItem` objects; an address is an index. -/
structure CartHeap where
  cells : List CartItem
  deriving Repr, DecidableEq

/-- Dereference one address. -/
def readAddr (h : CartHeap) (a : ℕ) : Option CartItem :=
  h.cells[a]?

/-- What a holder of the array `arr` observes: the list of line objects
reachable through its references. -/
def readCart (h : CartHeap) (arr : List ℕ) : List (Option CartItem) :=
  arr.map (readAddr h)

/-- Heap-level `findIndex` over the dereferenced lines. -/
def findIdxByProduct (h : CartHeap) (arr : List ℕ) (pid : String) : Option ℕ :=
  arr.findIdx? (fun a => (readAddr h a).elim false (fun it => it.productId == pid))

/-- Overwrite the cell at address `a`. -/
def writeAddr (h : CartHeap) (a : ℕ) (it : CartItem) : CartHeap :=
  ⟨h.cells.set a it⟩

/-- Reference-level embedding of `addToCart`: `duplicateItems` is a shallow
copy (the same addresses), the append path allocates a fresh cell, and the
increment path writes `quantity + 1` into the cell both the old and the new
array reference. -/
def addToCartRef (h : CartHeap) (arr : List ℕ) (newItem : AddToCartItem) :
    CartHeap × List ℕ :=
  match findIdxByProduct h arr newItem.productId with
  | none =>
      (⟨h.cells ++ [{ productId := newItem.productId, name := newItem.name,
                      price := newItem.price, quantity := 1, imageUrl := newItem.imageUrl }]⟩,
       arr ++ [h.cells.length])
  | some i =>
      match arr[i]? with
      | none => (h, arr)
      | some a =>
          match readAddr h a with
          | none => (h, arr)
          | some itemToUpdate =>
              (writeAddr h a { itemToUpdate with quantity := itemToUpdate.quantity + 1 }, arr)

/-! ## Order creation (`src/server/api/routers/order.ts`) -/

/-- A catalog product row, as read by `db.product.findMany`.  The Prisma
schema is not part of the sources; per the spec `price` is an integer in
the smallest currency unit, carried here inside `ℚ` so that the arithmetic
of `createOrder` stays exact. -/
structure Product where
  id : String
  name : String
  price : ℚ
  deriving Repr, DecidableEq

/-- One element of the `orderItems` input array.  The zod schema is
`{ productId: z.string(), quantity: z.number().min(1) }`; `quantity` is a
number constrained only to be at least 1. -/
structure ClientOrderItem where
  productId : String
  quantity : ℚ
  deriving Repr, DecidableEq

/-- Order status; `status` defaults to awaiting payment on creation (the
source comment: "status akan default ke AWAITING_PAYMENT sesuai skema"). -/
inductive OrderStatus where
  | awaitingPayment
  | paid
  deriving Repr, DecidableEq

/-- A persisted `Order` row. -/
structure OrderRow where
  id : ℕ
  subtotal : ℚ
  tax : ℚ
  grandTotal : ℚ
  status : OrderStatus
  externalTransactionId : Option String
  paymentMethodId : Option String
  deriving Repr, DecidableEq

/-- A persisted `OrderItem` row. -/
structure OrderItemRow where
  orderId : ℕ
  productId : String
  price : ℚ
  quantity : ℚ
  deriving Repr, DecidableEq

/-- The database state visible to `createOrder`: the product catalog, the
orders table, the order-items table, and the id the next `order.create`
will assign. -/
structure Db where
  products : List Product
  orders : List OrderRow
  orderItems : List OrderItemRow
  nextOrderId : ℕ
  deriving Repr, DecidableEq

/-- The Xendit payment method object (`paymentRequest.paymentMethod`), with
the nested `qrCode.channelProperties.qrString` flattened to the string the
source extracts on success. -/
structure PaymentMethod where
  id : String
  qrString : String
  deriving Repr, DecidableEq

/-- The Xendit payment request object returned by `createQRIS`. -/
structure PaymentRequest where
  id : String
  paymentMethod : PaymentMethod
  deriving Repr, DecidableEq

/-- Outcome injected for the `db.orderItem.createMany` write. -/
inductive WriteOutcome where
  | ok
  | fail
  deriving Repr, DecidableEq

/-- Outcome injected for the `createQRIS` gateway call. -/
inductive GatewayOutcome where
  | ok (pr : PaymentRequest)
  | fail
  deriving Repr, DecidableEq

/-- The distinct ways a `createOrder` call can throw.  Each constructor
carries exactly the data the thrown JavaScript error carries: the zod
rejection, the Prisma error escaping `orderItem.createMany`, and the error
escaping `createQRIS` know nothing about the created order, so the
constructors are nullary. -/
inductive CreateOrderError where
  | validation
  | itemWriteFailed
  | gatewayFailure
  deriving Repr, DecidableEq

/-- The successful return value of `createOrder`: the `order` object bound
at step `db.order.create` (not re-read after the update), the
`createMany` result (Prisma returns a count), and the extracted QR
string. -/
structure CreateOrderResponse where
  order : OrderRow
  newOrderItemsCount : ℕ
  qrString : String
  deriving Repr, DecidableEq

/-- The zod input validation: every `quantity` must satisfy `.min(1)`.
There is no constraint on the array itself (`z.array` without `.min`), so
an empty `orderItems` list passes. -/
def validOrderInput (orderItems : List ClientOrderItem) : Bool :=
  orderItems.all (fun it => 1 ≤ it.quantity)

/-- The `orderItems.find((item) => item.productId === product.id)!.quantity`
lookup.  The non-null assertion is modelled with a default of 0, which is
unreachable for the product ids `createOrder` feeds it (every product
returned by the `findMany` filter has a matching input item by
construction). -/
def qtyFor (orderItems : List ClientOrderItem) (pid : String) : ℚ :=
  ((orderItems.find? (fun it => it.productId == pid)).map (fun it => it.quantity)).getD 0

/-- The `products.forEach` accumulation of `subtotal`, starting from
`let subtotal = 0` and adding `product.price * productQuantity` per
product. -/
def computeSubtotal (products : List Product) (orderItems : List ClientOrderItem) : ℚ :=
  products.foldl (fun acc p => acc + p.price * qtyFor orderItems p.id) 0

/-- The `db.product.findMany({ where: { id: { in: ... } } })` read: the
catalog rows whose id occurs among the submitted product ids. -/
def matchedProducts (db : Db) (orderItems : List ClientOrderItem) : List Product :=
  db.products.filter (fun p => (orderItems.map (fun it => it.productId)).contains p.id)

/-- The `OrderItem` rows built for `db.orderItem.createMany`: one per
matched product, carrying the catalog price and the client quantity. -/
def orderItemRows (orderId : ℕ) (products : List Product)
    (orderItems : List ClientOrderItem) : List OrderItemRow :=
  products.map (fun p =>
    { orderId := orderId, productId := p.id, price := p.price,
      quantity := qtyFor orderItems p.id })

/-- Shallow embedding of the `createOrder` mutation.  The steps follow the
source in order: zod validation; `findMany` of the matched products;
subtotal/tax/grandTotal; `order.create` (status defaulting, no external
ids); `orderItem.createMany` (a separate await, not inside any
transaction — on failure the order row stays); `createQRIS` (on failure the
error propagates and the committed rows stay); `order.update` writing the
external ids; the response returning the pre-update `order` object, the
`createMany` count, and the QR string. -/
def createOrder (db : Db) (orderItems : List ClientOrderItem)
    (itemWrite : WriteOutcome) (gateway : GatewayOutcome) :
    Db × Except CreateOrderError CreateOrderResponse :=
  if validOrderInput orderItems then
    let products := matchedProducts db orderItems
    let subtotal := computeSubtotal products orderItems
    let tax := subtotal * (1 / 10)
    let grandTotal := subtotal + tax
    let order : OrderRow :=
      { id := db.nextOrderId, subtotal := subtotal, tax := tax, grandTotal := grandTotal,
        status := OrderStatus.awaitingPayment,
        externalTransactionId := none, paymentMethodId := none }
    let db1 : Db := { db with orders := db.orders ++ [order], nextOrderId := db.nextOrderId + 1 }
    match itemWrite with
    | WriteOutcome.fail => (db1, Except.error CreateOrderError.itemWriteFailed)
    | WriteOutcome.ok =>
        let rows := orderItemRows order.id products orderItems
        let db2 : Db := { db1 with orderItems := db1.orderItems ++ rows }
        match gateway with
        | GatewayOutcome.fail => (db2, Except.error CreateOrderError.gatewayFailure)
        | GatewayOutcome.ok pr =>
            let db3 : Db :=
              { db2 with orders := db2.orders.map (fun o =>
                  if o.id = order.id then
                    { o with externalTransactionId := some pr.id,
                             paymentMethodId := some pr.paymentMethod.id }
                  else o) }
            (db3, Except.ok { order := order, newOrderItemsCount := rows.length,
                              qrString := pr.paymentMethod.qrString })
  else (db, Except.error CreateOrderError.validation)

/-- Modelled from the spec: the repository has no product-update endpoint
(an explicit upstream TODO), but the spec's price-snapshot-isolation
scenario changes a product's price after an order exists.  This is that
price change: an update of the `Product` table only. -/
def updateProductPrice (db : Db) (pid : String) (newPrice : ℚ) : Db :=
  { db with products := db.products.map (fun p =>
      if p.id = pid then { p with price := newPrice } else p) }

end SimplePos

namespace SimplePos

/-! ## Helper lemmas -/

/-- Accumulating a sum by `foldl` equals adding the sum of the mapped list. -/
theorem foldl_add_eq_sum (f : Product → ℚ) (l : List Product) (a : ℚ) :
    l.foldl (fun acc x => acc + f x) a = a + (l.map f).sum := by
  induction l generalizing a with
  | nil => simp
  | cons x xs ih => simp [List.foldl_cons, ih, add_assoc]

/-- The `forEach` accumulation of `createOrder` is the sum of
price-times-quantity over the matched products. -/
theorem computeSubtotal_eq_sum (products : List Product) (orderItems : List ClientOrderItem) :
    computeSubtotal products orderItems
      = (products.map (fun p => p.price * qtyFor orderItems p.id)).sum := by
  unfold computeSubtotal
  rw [foldl_add_eq_sum, zero_add]

/-- On zod-validated input every quantity lookup is non-negative. -/
theorem qtyFor_nonneg (orderItems : List ClientOrderItem)
    (hv : validOrderInput orderItems = true) (pid : String) :
    0 ≤ qtyFor orderItems pid := by
  unfold qtyFor
  cases h : orderItems.find? (fun it => it.productId == pid) with
  | none => simp
  | some it =>
      have hm := List.mem_of_find?_eq_some h
      have h1 : (1 : ℚ) ≤ it.quantity :=
        of_decide_eq_true ((List.all_eq_true.mp hv) it hm)
      simpa using le_trans zero_le_one h1

/-- `find?` ignores an interposed item whose `productId` differs from the
searched one. -/
theorem find?_splice (pre post : List ClientOrderItem) (bogus : String) (q : ℚ)
    (pid : String) (hne : pid ≠ bogus) :
    (pre ++ ⟨bogus, q⟩ :: post).find? (fun it => it.productId == pid)
      = (pre ++ post).find? (fun it => it.productId == pid) := by
  rw [List.find?_append, List.find?_append, List.find?_cons]
  have hb : ((⟨bogus, q⟩ : ClientOrderItem).productId == pid) = false :=
    beq_eq_false_iff_ne.mpr (fun h => hne (h ▸ rfl))
  simp [hb]

/-- The quantity lookup ignores an interposed line with a different id. -/
theorem qtyFor_splice (pre post : List ClientOrderItem) (bogus : String) (q : ℚ)
    (pid : String) (hne : pid ≠ bogus) :
    qtyFor (pre ++ ⟨bogus, q⟩ :: post) pid = qtyFor (pre ++ post) pid := by
  unfold qtyFor
  rw [find?_splice pre post bogus q pid hne]

/-- Membership in a list with one interposed different element. -/
theorem mem_splice_iff (pre post : List String) (bogus : String) (pid : String)
    (hne : pid ≠ bogus) :
    (pid ∈ pre ++ bogus :: post) ↔ (pid ∈ pre ++ post) := by
  simp only [List.mem_append, List.mem_cons]
  tauto

/-- Writing back the element already stored at an index leaves the list
unchanged. -/
theorem set_eq_self_of_getElem? {α : Type _} (l : List α) (i : ℕ) (a : α)
    (h : l[i]? = some a) : l.set i a = l := by
  induction l generalizing i with
  | nil => simp at h
  | cons x xs ih =>
      cases i with
      | zero =>
          simp only [List.getElem?_cons_zero, Option.some_inj] at h
          simp [h]
      | succ n =>
          simp only [List.getElem?_cons_succ] at h
          simp [ih n h]

/-! ## Claim theorems -/

/-- C1.  The claim says Order and OrderItem persistence is all-or-nothing,
so that when the OrderItem insertion fails no Order row persists.  The
source runs `db.order.create` and `db.orderItem.createMany` as two separate
awaits with no surrounding transaction, so when the `createMany` write
fails the Order row created just before stays in the database with zero
items: evaluating the embedded `createOrder` on a one-line request with a
failing item write leaves the orders table holding the new row and the
order-items table empty. -/
theorem c1_item_insert_failure_leaves_persisted_order :
    createOrder ⟨[⟨"a", "A", 10000⟩], [], [], 7⟩ [⟨"a", 2⟩] WriteOutcome.fail
        (GatewayOutcome.ok ⟨"x", ⟨"p", "QR"⟩⟩)
      = (⟨[⟨"a", "A", 10000⟩],
          [⟨7, 20000, 2000, 22000, OrderStatus.awaitingPayment, none, none⟩], [], 8⟩,
         Except.error CreateOrderError.itemWriteFailed) := by
  norm_num [createOrder, validOrderInput, matchedProducts, computeSubtotal, qtyFor]

/-- C2.  The pricing computation of `createOrder` is the pure function
claimed: the persisted subtotal is the sum over every matched catalog
product of its authoritative price times the client-submitted quantity, tax
is subtotal times one tenth, grandTotal is subtotal plus tax; and on the
spec's concrete example the totals are 25000, 2500 and 27500. -/
theorem c2_pricing_correctness (db : Db) (orderItems : List ClientOrderItem)
    (pr : PaymentRequest) (hv : validOrderInput orderItems = true) :
    (∃ resp, (createOrder db orderItems WriteOutcome.ok (GatewayOutcome.ok pr)).2
        = Except.ok resp
      ∧ resp.order.subtotal = ((matchedProducts db orderItems).map
            (fun p => p.price * qtyFor orderItems p.id)).sum
      ∧ resp.order.tax = resp.order.subtotal * (1 / 10)
      ∧ resp.order.grandTotal = resp.order.subtotal + resp.order.tax)
    ∧ computeSubtotal [⟨"pa", "A", 10000⟩, ⟨"pb", "B", 5000⟩] [⟨"pa", 2⟩, ⟨"pb", 1⟩] = 25000
    ∧ (25000 : ℚ) * (1 / 10) = 2500
    ∧ (25000 : ℚ) + 2500 = 27500 := by
  refine ⟨?_, by simp [computeSubtotal, qtyFor, List.find?]; norm_num, by norm_num, by norm_num⟩
  simp only [createOrder, if_pos hv]
  exact ⟨_, rfl, computeSubtotal_eq_sum _ _, rfl, rfl⟩

/-- C2 witness: the pricing theorem applied to a concrete database and
request. -/
theorem c2_pricing_correctness_witness :
    (∃ resp, (createOrder ⟨[⟨"a", "A", 10000⟩], [], [], 7⟩ [⟨"a", 2⟩]
          WriteOutcome.ok (GatewayOutcome.ok ⟨"x", ⟨"p", "QR"⟩⟩)).2
        = Except.ok resp
      ∧ resp.order.subtotal = ((matchedProducts ⟨[⟨"a", "A", 10000⟩], [], [], 7⟩ [⟨"a", 2⟩]).map
            (fun p => p.price * qtyFor [⟨"a", 2⟩] p.id)).sum
      ∧ resp.order.tax = resp.order.subtotal * (1 / 10)
      ∧ resp.order.grandTotal = resp.order.subtotal + resp.order.tax)
    ∧ computeSubtotal [⟨"pa", "A", 10000⟩, ⟨"pb", "B", 5000⟩] [⟨"pa", 2⟩, ⟨"pb", 1⟩] = 25000
    ∧ (25000 : ℚ) * (1 / 10) = 2500
    ∧ (25000 : ℚ) + 2500 = 27500 :=
  c2_pricing_correctness ⟨[⟨"a", "A", 10000⟩], [], [], 7⟩ [⟨"a", 2⟩]
    ⟨"x", ⟨"p", "QR"⟩⟩ (by decide)

/-- C3 counterexample.  A catalog price of 1001 with quantity 1 yields the
integer subtotal 1001, and the code persists tax equal to 1001 tenths: a
value strictly between the consecutive integers 100 and 101, hence not an
integer — refuting the claim that the persisted tax is an exact integer for
all integer subtotals. -/
theorem c3_fractional_tax_counterexample :
    createOrder ⟨[⟨"a", "A", 1001⟩], [], [], 0⟩ [⟨"a", 1⟩] WriteOutcome.ok
        (GatewayOutcome.ok ⟨"x", ⟨"p", "QR"⟩⟩)
      = (⟨[⟨"a", "A", 1001⟩],
          [⟨0, 1001, 1001 / 10, 1001 + 1001 / 10, OrderStatus.awaitingPayment,
            some "x", some "p"⟩],
          [⟨0, "a", 1001, 1⟩], 1⟩,
         Except.ok ⟨⟨0, 1001, 1001 / 10, 1001 + 1001 / 10, OrderStatus.awaitingPayment,
            none, none⟩, 1, "QR"⟩)
  ∧ (100 : ℚ) < 1001 / 10 ∧ (1001 : ℚ) / 10 < 101 := by
  refine ⟨?_, by norm_num, by norm_num⟩
  norm_num [createOrder, validOrderInput, matchedProducts, computeSubtotal, qtyFor, orderItemRows]

/-- C3 amended.  In the exact-arithmetic semantics of the embedding the
persisted totals satisfy: subtotal is non-negative (for a catalog of
non-negative prices and validated quantities), tax equals subtotal times
one tenth and grandTotal equals subtotal plus tax with no rounding applied,
and for an integer subtotal the persisted tax is an integer exactly when
the subtotal is divisible by 10 — so non-integer tax values are persisted
whenever it is not. -/
theorem c3_exact_tax_arithmetic (db : Db) (orderItems : List ClientOrderItem)
    (pr : PaymentRequest) (hv : validOrderInput orderItems = true)
    (hp : ∀ p ∈ db.products, 0 ≤ p.price) :
    ∃ resp, (createOrder db orderItems WriteOutcome.ok (GatewayOutcome.ok pr)).2
        = Except.ok resp
      ∧ 0 ≤ resp.order.subtotal
      ∧ resp.order.tax = resp.order.subtotal * (1 / 10)
      ∧ resp.order.grandTotal = resp.order.subtotal + resp.order.tax
      ∧ 0 ≤ resp.order.tax ∧ 0 ≤ resp.order.grandTotal
      ∧ (∀ n : ℤ, resp.order.subtotal = (n : ℚ) →
          ((∃ k : ℤ, resp.order.tax = (k : ℚ)) ↔ (10 : ℤ) ∣ n)) := by
  have hsub : 0 ≤ computeSubtotal (matchedProducts db orderItems) orderItems := by
    rw [computeSubtotal_eq_sum]
    refine List.sum_nonneg ?_
    intro x hx
    rcases List.mem_map.mp hx with ⟨p, hp', rfl⟩
    have hpm : p ∈ db.products := (List.mem_filter.mp hp').1
    exact mul_nonneg (hp p hpm) (qtyFor_nonneg orderItems hv p.id)
  simp only [createOrder, if_pos hv]
  refine ⟨_, rfl, hsub, rfl, rfl, ?_, ?_, ?_⟩
  · exact mul_nonneg hsub (by norm_num)
  · exact add_nonneg hsub (mul_nonneg hsub (by norm_num))
  · intro n hn
    dsimp only at hn
    constructor
    · rintro ⟨k, hk⟩
      dsimp only at hk
      rw [hn] at hk
      have : (n : ℚ) = 10 * k := by
        field_simp at hk
        linarith
      exact ⟨k, by exact_mod_cast this⟩
    · rintro ⟨k, rfl⟩
      refine ⟨k, ?_⟩
      dsimp only
      rw [hn]
      push_cast
      ring

/-- C3 amended witness: the exact-arithmetic theorem applied to a concrete
database and request. -/
theorem c3_exact_tax_arithmetic_witness :
    ∃ resp, (createOrder ⟨[⟨"a", "A", 10000⟩], [], [], 7⟩ [⟨"a", 2⟩]
          WriteOutcome.ok (GatewayOutcome.ok ⟨"x", ⟨"p", "QR"⟩⟩)).2
        = Except.ok resp
      ∧ 0 ≤ resp.order.subtotal
      ∧ resp.order.tax = resp.order.subtotal * (1 / 10)
      ∧ resp.order.grandTotal = resp.order.subtotal + resp.order.tax
      ∧ 0 ≤ resp.order.tax ∧ 0 ≤ resp.order.grandTotal
      ∧ (∀ n : ℤ, resp.order.subtotal = (n : ℚ) →
          ((∃ k : ℤ, resp.order.tax = (k : ℚ)) ↔ (10 : ℤ) ∣ n)) :=
  c3_exact_tax_arithmetic ⟨[⟨"a", "A", 10000⟩], [], [], 7⟩ [⟨"a", 2⟩]
    ⟨"x", ⟨"p", "QR"⟩⟩ (by decide) (by decide)

/-- C4.  Every OrderItem row persisted by `createOrder` carries the
authoritative catalog price of its product (the input schema has no price
field at all, so no client-submitted price can be involved) and the
client-submitted quantity looked up by productId; and a later product price
update touches only the Product table, leaving every persisted OrderItem
(and Order) row unchanged. -/
theorem c4_price_snapshot (db : Db) (orderItems : List ClientOrderItem)
    (pr : PaymentRequest) (hv : validOrderInput orderItems = true) :
    ((createOrder db orderItems WriteOutcome.ok (GatewayOutcome.ok pr)).1.orderItems
        = db.orderItems ++ orderItemRows db.nextOrderId (matchedProducts db orderItems) orderItems)
  ∧ (∀ row ∈ orderItemRows db.nextOrderId (matchedProducts db orderItems) orderItems,
        ∃ p ∈ db.products, row.productId = p.id ∧ row.price = p.price
          ∧ row.quantity = qtyFor orderItems p.id)
  ∧ (∀ (d : Db) (pid : String) (np : ℚ),
        (updateProductPrice d pid np).orderItems = d.orderItems
      ∧ (updateProductPrice d pid np).orders = d.orders) := by
  refine ⟨?_, ?_, fun d pid np => ⟨rfl, rfl⟩⟩
  · simp only [createOrder, if_pos hv]
  · intro row hrow
    rcases List.mem_map.mp hrow with ⟨p, hp, rfl⟩
    exact ⟨p, (List.mem_filter.mp hp).1, rfl, rfl, rfl⟩

/-- C4 witness: the snapshot theorem applied to a concrete database and
request. -/
theorem c4_price_snapshot_witness :
    ((createOrder ⟨[⟨"a", "A", 10000⟩], [], [], 7⟩ [⟨"a", 2⟩]
          WriteOutcome.ok (GatewayOutcome.ok ⟨"x", ⟨"p", "QR"⟩⟩)).1.orderItems
        = [] ++ orderItemRows 7 (matchedProducts ⟨[⟨"a", "A", 10000⟩], [], [], 7⟩ [⟨"a", 2⟩])
            [⟨"a", 2⟩])
  ∧ (∀ row ∈ orderItemRows 7 (matchedProducts ⟨[⟨"a", "A", 10000⟩], [], [], 7⟩ [⟨"a", 2⟩])
        [⟨"a", 2⟩],
        ∃ p ∈ [(⟨"a", "A", 10000⟩ : Product)], row.productId = p.id ∧ row.price = p.price
          ∧ row.quantity = qtyFor [⟨"a", 2⟩] p.id)
  ∧ (∀ (d : Db) (pid : String) (np : ℚ),
        (updateProductPrice d pid np).orderItems = d.orderItems
      ∧ (updateProductPrice d pid np).orders = d.orders) :=
  c4_price_snapshot ⟨[⟨"a", "A", 10000⟩], [], [], 7⟩ [⟨"a", 2⟩]
    ⟨"x", ⟨"p", "QR"⟩⟩ (by decide)

/-- C5 counterexample.  Two runs that differ only in the id assigned to the
created order (7 versus 42) fail the gateway call and surface the very same
error value, with no order id in it: the response surfaced on gateway
failure is the constant `gatewayFailure` thrown by `createQRIS`, so it
cannot include the created order's id, refuting that conjunct of the claim
(the source has no catch around `createQRIS`; the thrown error propagates
unchanged). -/
theorem c5_gateway_error_lacks_order_id :
    createOrder ⟨[⟨"a", "A", 10000⟩], [], [], 7⟩ [⟨"a", 2⟩] WriteOutcome.ok GatewayOutcome.fail
      = (⟨[⟨"a", "A", 10000⟩],
          [⟨7, 20000, 2000, 22000, OrderStatus.awaitingPayment, none, none⟩],
          [⟨7, "a", 10000, 2⟩], 8⟩,
         Except.error CreateOrderError.gatewayFailure)
  ∧ createOrder ⟨[⟨"a", "A", 10000⟩], [], [], 42⟩ [⟨"a", 2⟩] WriteOutcome.ok GatewayOutcome.fail
      = (⟨[⟨"a", "A", 10000⟩],
          [⟨42, 20000, 2000, 22000, OrderStatus.awaitingPayment, none, none⟩],
          [⟨42, "a", 10000, 2⟩], 43⟩,
         Except.error CreateOrderError.gatewayFailure) := by
  constructor <;>
    norm_num [createOrder, validOrderInput, matchedProducts, computeSubtotal, qtyFor, orderItemRows]

/-- C5 amended.  When the gateway call fails after the Order was persisted,
the Order row remains durably stored in its default awaiting-payment status
with no external ids set, its OrderItems remain stored, and the failure is
surfaced to the caller as the distinct gateway error — but that error does
not include the created order's id. -/
theorem c5_gateway_failure_durable_order (db : Db) (orderItems : List ClientOrderItem)
    (hv : validOrderInput orderItems = true) :
    (createOrder db orderItems WriteOutcome.ok GatewayOutcome.fail).2
        = Except.error CreateOrderError.gatewayFailure
  ∧ (createOrder db orderItems WriteOutcome.ok GatewayOutcome.fail).1.orders
        = db.orders ++
          [{ id := db.nextOrderId,
             subtotal := computeSubtotal (matchedProducts db orderItems) orderItems,
             tax := computeSubtotal (matchedProducts db orderItems) orderItems * (1 / 10),
             grandTotal := computeSubtotal (matchedProducts db orderItems) orderItems
               + computeSubtotal (matchedProducts db orderItems) orderItems * (1 / 10),
             status := OrderStatus.awaitingPayment,
             externalTransactionId := none, paymentMethodId := none }]
  ∧ (createOrder db orderItems WriteOutcome.ok GatewayOutcome.fail).1.orderItems
        = db.orderItems ++ orderItemRows db.nextOrderId (matchedProducts db orderItems) orderItems := by
  refine ⟨?_, ?_, ?_⟩ <;> simp only [createOrder, if_pos hv]

/-- C5 amended witness: the durable-order theorem applied to a concrete
database and request. -/
theorem c5_gateway_failure_durable_order_witness :
    (createOrder ⟨[⟨"a", "A", 10000⟩], [], [], 7⟩ [⟨"a", 2⟩]
          WriteOutcome.ok GatewayOutcome.fail).2
        = Except.error CreateOrderError.gatewayFailure
  ∧ (createOrder ⟨[⟨"a", "A", 10000⟩], [], [], 7⟩ [⟨"a", 2⟩]
          WriteOutcome.ok GatewayOutcome.fail).1.orders
        = [] ++
          [{ id := 7,
             subtotal := computeSubtotal
               (matchedProducts ⟨[⟨"a", "A", 10000⟩], [], [], 7⟩ [⟨"a", 2⟩]) [⟨"a", 2⟩],
             tax := computeSubtotal
               (matchedProducts ⟨[⟨"a", "A", 10000⟩], [], [], 7⟩ [⟨"a", 2⟩]) [⟨"a", 2⟩] * (1 / 10),
             grandTotal := computeSubtotal
               (matchedProducts ⟨[⟨"a", "A", 10000⟩], [], [], 7⟩ [⟨"a", 2⟩]) [⟨"a", 2⟩]
               + computeSubtotal
                 (matchedProducts ⟨[⟨"a", "A", 10000⟩], [], [], 7⟩ [⟨"a", 2⟩]) [⟨"a", 2⟩] * (1 / 10),
             status := OrderStatus.awaitingPayment,
             externalTransactionId := none, paymentMethodId := none }]
  ∧ (createOrder ⟨[⟨"a", "A", 10000⟩], [], [], 7⟩ [⟨"a", 2⟩]
          WriteOutcome.ok GatewayOutcome.fail).1.orderItems
        = [] ++ orderItemRows 7
            (matchedProducts ⟨[⟨"a", "A", 10000⟩], [], [], 7⟩ [⟨"a", 2⟩]) [⟨"a", 2⟩] :=
  c5_gateway_failure_durable_order ⟨[⟨"a", "A", 10000⟩], [], [], 7⟩ [⟨"a", 2⟩] (by decide)

/-- C6.  The claim says `createOrder` rejects an empty `clientOrderItems`
list before any persistence.  The zod schema constrains only each element's
quantity, not the array, so the empty list passes validation and the code
persists a zero-item, zero-total Order and completes successfully; the
quantity rule, in contrast, does hold: any item with quantity below 1 is
rejected with a validation error and no state change. -/
theorem c6_empty_order_accepted :
    (createOrder ⟨[⟨"a", "A", 10000⟩], [], [], 7⟩ [] WriteOutcome.ok
        (GatewayOutcome.ok ⟨"x", ⟨"p", "QR"⟩⟩)
      = (⟨[⟨"a", "A", 10000⟩],
          [⟨7, 0, 0, 0, OrderStatus.awaitingPayment, some "x", some "p"⟩], [], 8⟩,
         Except.ok ⟨⟨7, 0, 0, 0, OrderStatus.awaitingPayment, none, none⟩, 0, "QR"⟩))
  ∧ ∀ (db : Db) (w : WriteOutcome) (g : GatewayOutcome),
      createOrder db [⟨"a", 1/2⟩] w g = (db, Except.error CreateOrderError.validation) := by
  constructor
  · norm_num [createOrder, validOrderInput, matchedProducts, computeSubtotal, qtyFor, orderItemRows]
  · intro db w g
    have hv : validOrderInput [⟨"a", 1/2⟩] = false := by
      norm_num [validOrderInput]
    simp only [createOrder, hv, Bool.false_eq_true, if_false]

/-- C7.  A client line whose productId is not in the catalog is silently
dropped: inserting such a line anywhere in the request leaves the entire
`createOrder` outcome — pricing, persisted rows and response — exactly the
one for the request without that line, for every failure scenario; in
particular the request is not rejected. -/
theorem c7_unknown_product_silently_dropped (db : Db)
    (pre post : List ClientOrderItem) (bogus : String) (q : ℚ)
    (hb : bogus ∉ db.products.map Product.id) (hq : (1 : ℚ) ≤ q)
    (w : WriteOutcome) (g : GatewayOutcome) :
    createOrder db (pre ++ ⟨bogus, q⟩ :: post) w g = createOrder db (pre ++ post) w g := by
  have hpid : ∀ p ∈ db.products, p.id ≠ bogus := by
    intro p hp h
    exact hb (h ▸ List.mem_map_of_mem Product.id hp)
  have hval : validOrderInput (pre ++ ⟨bogus, q⟩ :: post) = validOrderInput (pre ++ post) := by
    simp [validOrderInput, List.all_append, List.all_cons, hq]
  have hmp : matchedProducts db (pre ++ ⟨bogus, q⟩ :: post) = matchedProducts db (pre ++ post) := by
    unfold matchedProducts
    refine List.filter_congr ?_
    intro p hp
    have h1 : ((pre ++ ⟨bogus, q⟩ :: post).map (fun it => it.productId))
        = pre.map (fun it => it.productId) ++ bogus :: post.map (fun it => it.productId) := by
      simp
    have h2 : ((pre ++ post).map (fun it => it.productId))
        = pre.map (fun it => it.productId) ++ post.map (fun it => it.productId) := by
      simp
    rw [h1, h2]
    have hc : ∀ (l : List String) (a : String), l.contains a = decide (a ∈ l) := by
      intro l a
      simp [List.contains, List.elem_eq_mem]
    rw [hc, hc]
    exact decide_eq_decide.mpr
      (mem_splice_iff (pre.map (fun it => it.productId))
        (post.map (fun it => it.productId)) bogus p.id (hpid p hp))
  have hqty : ∀ p ∈ matchedProducts db (pre ++ post),
      qtyFor (pre ++ ⟨bogus, q⟩ :: post) p.id = qtyFor (pre ++ post) p.id := by
    intro p hp
    exact qtyFor_splice pre post bogus q p.id (hpid p (List.mem_filter.mp hp).1)
  have hsub : computeSubtotal (matchedProducts db (pre ++ post)) (pre ++ ⟨bogus, q⟩ :: post)
      = computeSubtotal (matchedProducts db (pre ++ post)) (pre ++ post) := by
    rw [computeSubtotal_eq_sum, computeSubtotal_eq_sum]
    exact congrArg List.sum (List.map_congr_left (fun p hp => by rw [hqty p hp]))
  have hrows : orderItemRows db.nextOrderId (matchedProducts db (pre ++ post))
        (pre ++ ⟨bogus, q⟩ :: post)
      = orderItemRows db.nextOrderId (matchedProducts db (pre ++ post)) (pre ++ post) := by
    unfold orderItemRows
    exact List.map_congr_left (fun p hp => by rw [hqty p hp])
  simp only [createOrder]
  rw [hval, hmp, hsub, hrows]

/-- C7 witness: one valid id plus one nonexistent id gives the same outcome
as the valid id alone. -/
theorem c7_unknown_product_silently_dropped_witness :
    createOrder ⟨[⟨"a", "A", 10000⟩], [], [], 7⟩ ([⟨"a", 2⟩] ++ ⟨"zz", 1⟩ :: [])
        WriteOutcome.ok (GatewayOutcome.ok ⟨"x", ⟨"p", "QR"⟩⟩)
      = createOrder ⟨[⟨"a", "A", 10000⟩], [], [], 7⟩ ([⟨"a", 2⟩] ++ [])
        WriteOutcome.ok (GatewayOutcome.ok ⟨"x", ⟨"p", "QR"⟩⟩) :=
  c7_unknown_product_silently_dropped ⟨[⟨"a", "A", 10000⟩], [], [], 7⟩
    [⟨"a", 2⟩] [] "zz" 1 (by decide) (by decide)
    WriteOutcome.ok (GatewayOutcome.ok ⟨"x", ⟨"p", "QR"⟩⟩)

/-- C8.  `addToCart` keeps at most one cart line per productId: it
preserves distinctness of the productIds, appends a quantity-1 line exactly
when no line with that productId exists, and adding the same productId
twice starting from the empty cart yields the single line with quantity 2,
never two lines. -/
theorem c8_cart_unique_product_line (items : List CartItem) (n : AddToCartItem)
    (hnd : (items.map CartItem.productId).Nodup) :
    ((addToCart items n).map CartItem.productId).Nodup
  ∧ ((∀ it ∈ items, it.productId ≠ n.productId) →
        addToCart items n
          = items ++ [⟨n.productId, n.name, n.price, 1, n.imageUrl⟩])
  ∧ addToCart (addToCart [] n) n = [⟨n.productId, n.name, n.price, 2, n.imageUrl⟩] := by
  refine ⟨?_, ?_, ?_⟩
  · cases hidx : items.findIdx? (fun it => it.productId == n.productId) with
    | none =>
        have hall := List.findIdx?_eq_none_iff.mp hidx
        have hnotin : n.productId ∉ items.map CartItem.productId := by
          intro hmem
          rcases List.mem_map.mp hmem with ⟨it, hit, hpid⟩
          have := hall it hit
          rw [hpid] at this
          simp at this
        simp only [addToCart, hidx]
        rw [List.map_append]
        rw [List.nodup_append]
        refine ⟨hnd, by simp, ?_⟩
        intro x hx
        simp only [List.map_cons, List.map_nil, List.mem_singleton]
        intro hx1
        exact hnotin (hx1 ▸ hx)
    | some i =>
        rcases List.findIdx?_eq_some_iff_getElem.mp hidx with ⟨hlt, hp, -⟩
        have hget : items[i]? = some (items.get ⟨i, hlt⟩) :=
          List.getElem?_eq_getElem hlt
        simp only [addToCart, hidx, hget]
        rw [List.map_set]
        have : (items.map CartItem.productId).set i (items.get ⟨i, hlt⟩).productId
            = items.map CartItem.productId := by
          refine set_eq_self_of_getElem? _ _ _ ?_
          rw [List.getElem?_map, List.getElem?_eq_getElem hlt]
          rfl
        show ((items.map CartItem.productId).set i (items.get ⟨i, hlt⟩).productId).Nodup
        rw [this]
        exact hnd
  · intro hno
    have hidx : items.findIdx? (fun it => it.productId == n.productId) = none := by
      rw [List.findIdx?_eq_none_iff]
      intro it hit
      exact beq_eq_false_iff_ne.mpr (hno it hit)
    simp [addToCart, hidx]
  · simp [addToCart, List.findIdx?_cons]

/-- C8 witness: the invariant theorem applied to the empty cart. -/
theorem c8_cart_unique_product_line_witness :
    ((addToCart [] ⟨"p", "P", 1000, "u"⟩).map CartItem.productId).Nodup
  ∧ ((∀ it ∈ ([] : List CartItem), it.productId ≠ "p") →
        addToCart [] ⟨"p", "P", 1000, "u"⟩ = [] ++ [⟨"p", "P", 1000, 1, "u"⟩])
  ∧ addToCart (addToCart [] ⟨"p", "P", 1000, "u"⟩) ⟨"p", "P", 1000, "u"⟩
      = [⟨"p", "P", 1000, 2, "u"⟩] :=
  c8_cart_unique_product_line [] ⟨"p", "P", 1000, "u"⟩ (by simp)

/-- C9 counterexample.  In the reference-level model, start from a cart
holding one line at address 0 with quantity 1 and add the same product
again: the increment path mutates the shared line object in place, so the
holder of the prior array reference `[0]` now observes quantity 2 — the
previously held cart state is changed, refuting the claim that no line
observable through the prior reference is mutated. -/
theorem c9_shared_line_mutation :
    readCart (addToCartRef ⟨[⟨"p", "P", 1000, 1, "u"⟩]⟩ [0] ⟨"p", "P", 1000, "u"⟩).1 [0]
      ≠ readCart ⟨[⟨"p", "P", 1000, 1, "u"⟩]⟩ [0] := by
  decide

/-- C9 amended.  `addToCart` produces a new container and, on the append
path (no existing line with the productId), leaves every previously
allocated line object unchanged; but on the increment path it returns the
same list of line references and mutates the matched line object in place,
so the new quantity is observable through the prior state's reference to
that line. -/
theorem c9_container_copy_line_mutation (h : CartHeap) (arr : List ℕ) (n : AddToCartItem) :
    (findIdxByProduct h arr n.productId = none →
        (addToCartRef h arr n).2 = arr ++ [h.cells.length]
      ∧ ∀ a, a < h.cells.length → readAddr (addToCartRef h arr n).1 a = readAddr h a)
  ∧ (∀ i a it, findIdxByProduct h arr n.productId = some i → arr[i]? = some a →
        readAddr h a = some it →
        (addToCartRef h arr n).2 = arr
      ∧ readAddr (addToCartRef h arr n).1 a
          = some { it with quantity := it.quantity + 1 }) := by
  constructor
  · intro hnone
    simp only [addToCartRef, hnone]
    refine ⟨trivial, ?_⟩
    intro a ha
    show (h.cells ++ [_])[a]? = h.cells[a]?
    rw [List.getElem?_append, if_pos ha]
  · intro i a it hidx ha hit
    simp only [addToCartRef, hidx, ha, hit]
    refine ⟨trivial, ?_⟩
    have hlt : a < h.cells.length := (List.getElem?_eq_some.mp hit).1
    show (h.cells.set a _)[a]? = _
    rw [List.getElem?_set, if_pos rfl, if_pos hlt]

/-- C9 amended witness: the increment path applied to the one-line heap. -/
theorem c9_container_copy_line_mutation_witness :
    (addToCartRef ⟨[⟨"p", "P", 1000, 1, "u"⟩]⟩ [0] ⟨"p", "P", 1000, "u"⟩).2 = [0]
  ∧ readAddr (addToCartRef ⟨[⟨"p", "P", 1000, 1, "u"⟩]⟩ [0] ⟨"p", "P", 1000, "u"⟩).1 0
      = some { (⟨"p", "P", 1000, 1, "u"⟩ : CartItem) with
               quantity := (⟨"p", "P", 1000, 1, "u"⟩ : CartItem).quantity + 1 } :=
  (c9_container_copy_line_mutation ⟨[⟨"p", "P", 1000, 1, "u"⟩]⟩ [0] ⟨"p", "P", 1000, "u"⟩).2
    0 0 ⟨"p", "P", 1000, 1, "u"⟩ (by decide) (by decide) (by decide)

/-- C10.  On the fully successful path the response's `order` object is the
row as created before reconciliation: its external transaction id and
payment method id are `none` in the response even though the reconciliation
write stored them on the database row with the same id; the payment linkage
is observable only through the separately returned QR string (and the
database row). -/
theorem c10_response_order_pre_reconciliation (db : Db)
    (orderItems : List ClientOrderItem) (pr : PaymentRequest)
    (hv : validOrderInput orderItems = true)
    (hid : ∀ o ∈ db.orders, o.id ≠ db.nextOrderId) :
    ∃ resp, (createOrder db orderItems WriteOutcome.ok (GatewayOutcome.ok pr)).2
        = Except.ok resp
      ∧ resp.order.id = db.nextOrderId
      ∧ resp.order.externalTransactionId = none
      ∧ resp.order.paymentMethodId = none
      ∧ resp.qrString = pr.paymentMethod.qrString
      ∧ (createOrder db orderItems WriteOutcome.ok (GatewayOutcome.ok pr)).1.orders.find?
            (fun o => o.id == db.nextOrderId)
          = some { resp.order with externalTransactionId := some pr.id,
                                   paymentMethodId := some pr.paymentMethod.id } := by
  simp only [createOrder, if_pos hv]
  refine ⟨_, rfl, rfl, rfl, rfl, rfl, ?_⟩
  rw [List.map_append, List.find?_append]
  have h1 : List.find? (fun o => o.id == db.nextOrderId)
      (db.orders.map (fun o =>
        if o.id = db.nextOrderId then
          { o with externalTransactionId := some pr.id,
                   paymentMethodId := some pr.paymentMethod.id }
        else o)) = none := by
    rw [List.find?_eq_none]
    intro x hx
    rcases List.mem_map.mp hx with ⟨o, ho, rfl⟩
    have hne := hid o ho
    simp [if_neg hne, hne]
  rw [h1, Option.none_or]
  simp [List.find?]

/-- C10 witness: the pre-reconciliation theorem applied to a concrete
database and request. -/
theorem c10_response_order_pre_reconciliation_witness :
    ∃ resp, (createOrder ⟨[⟨"a", "A", 10000⟩], [], [], 7⟩ [⟨"a", 2⟩]
          WriteOutcome.ok (GatewayOutcome.ok ⟨"x", ⟨"p", "QR"⟩⟩)).2
        = Except.ok resp
      ∧ resp.order.id = 7
      ∧ resp.order.externalTransactionId = none
      ∧ resp.order.paymentMethodId = none
      ∧ resp.qrString = "QR"
      ∧ (createOrder ⟨[⟨"a", "A", 10000⟩], [], [], 7⟩ [⟨"a", 2⟩]
            WriteOutcome.ok (GatewayOutcome.ok ⟨"x", ⟨"p", "QR"⟩⟩)).1.orders.find?
            (fun o => o.id == 7)
          = some { resp.order with externalTransactionId := some "x",
                                   paymentMethodId := some "p" } :=
  c10_response_order_pre_reconciliation ⟨[⟨"a", "A", 10000⟩], [], [], 7⟩ [⟨"a", 2⟩]
    ⟨"x", ⟨"p", "QR"⟩⟩ (by decide) (by decide)

end SimplePos
